import Mathlib

/-!
# sqlite3-wasm.c: key/value storage bridge, OPFS initialisation, VFS unlink

A shallow embedding of the hand-written C/JS glue of
`ext/wasm/api/sqlite3-wasm.c`:

* `kvstorageMakeKey`, `sqlite3_wasm__kvvfsMakeKey`, `kvstorageMakeKeyOnJSStack`
  (storage-key derivation),
* `kvstorageWrite`, `kvstorageDelete`, `kvstorageRead` (the `EM_JS` bodies
  working on `sessionStorage` / `localStorage`),
* `sqlite3_wasm_vfs_unlink`,
* `sqlite3_wasm_init_opfs`.

Conventions.  A `const char *` argument is an `Option CStr`: `none` is the
NULL pointer, `some s` points at the bytes `s` followed by a NUL.  A JavaScript
string is the list of its UTF-16 code units.  The caller's output buffer of
`kvstorageRead` is the linear memory at and after `zBuf`, a function from byte
offsets to byte values.  JavaScript exceptions are explicit: a storage global
that cannot be referenced is `none`, and a throwing `setItem` is an oracle of
the environment; every `catch` of the source is a branch of the model.
`stackSave`/`stackRestore` only move the stack pointer and `console.error` /
`emscripten_console_log` only print, so they have no counterpart here.
-/

namespace Sqlite3Wasm

/-! ## Basic data -/

/-- Bytes of a NUL-terminated C string, the terminator excluded. -/
abbrev CStr := List Nat

/-- JavaScript string, as the list of its UTF-16 code units. -/
abbrev JSString := List Nat

/-- Linear memory at and after a `char *`, indexed by byte offset. -/
abbrev Buffer := Nat → Nat

/-- Bytes of an ASCII literal of the source. -/
def cstr (s : String) : CStr := s.toList.map Char.toNat

/-- Result code `SQLITE_NOMEM` of sqlite3.h. -/
def SQLITE_NOMEM : Int := 7
/-- Result code `SQLITE_IOERR` of sqlite3.h. -/
def SQLITE_IOERR : Int := 10
/-- Result code `SQLITE_NOTFOUND` of sqlite3.h. -/
def SQLITE_NOTFOUND : Int := 12
/-- Result code `SQLITE_MISUSE` of sqlite3.h. -/
def SQLITE_MISUSE : Int := 21

/-- Well-formed C string contents: every byte is in `1..255`. -/
def IsCStr (s : CStr) : Prop := ∀ b ∈ s, 0 < b ∧ b < 256

/-- Single-byte text: every unit is a 7-bit ASCII code other than NUL. -/
def IsAscii (s : List Nat) : Prop := ∀ b ∈ s, 0 < b ∧ b < 128

/-- JavaScript string whose every code unit takes one byte in UTF-8. -/
def IsSingleByte (j : List Nat) : Prop := ∀ u ∈ j, u < 128

instance (j : List Nat) : Decidable (IsSingleByte j) := by unfold IsSingleByte; infer_instance
instance (s : CStr) : Decidable (IsCStr s) := by unfold IsCStr; infer_instance
instance (s : List Nat) : Decidable (IsAscii s) := by unfold IsAscii; infer_instance

/-! ## The Emscripten runtime and the Web Storage objects -/

/-- The `Storage` object of the host (`sessionStorage` or `localStorage`): its
    entries in insertion order. -/
abbrev Storage := List (JSString × JSString)

/-- JavaScript `Storage.prototype.getItem`: the value of the entry, `none` for
    JavaScript `null`. -/
def Storage.getItem (s : Storage) (k : JSString) : Option JSString :=
  match s with
  | [] => none
  | (k1, v1) :: rest => if k1 = k then some v1 else Storage.getItem rest k

/-- JavaScript `Storage.prototype.setItem`: replaces the value of an existing
    entry, appends a new entry otherwise. -/
def Storage.setItem (s : Storage) (k v : JSString) : Storage :=
  match s with
  | [] => [(k, v)]
  | (k1, v1) :: rest =>
    if k1 = k then (k1, v) :: rest else (k1, v1) :: Storage.setItem rest k v

/-- JavaScript `Storage.prototype.removeItem`: drops the entry if there is one. -/
def Storage.removeItem (s : Storage) (k : JSString) : Storage :=
  s.filter (fun e => decide (e.1 ≠ k))

/-- The two host maps.  `none` stands for a global whose reference throws
    (storage API unavailable or blocked). -/
structure Host where
  sessionStorage : Option Storage
  localStorage : Option Storage
  deriving DecidableEq, Repr

/-- Services of the JavaScript side that the source calls but does not define:
    the Emscripten string codecs and the host policy on `setItem`. -/
structure JSEnv where
  /-- Emscripten `UTF8ToString`, applied to the bytes of a C string. -/
  UTF8ToString : CStr → JSString
  /-- Bytes that Emscripten `allocateUTF8OnStack` writes before the NUL. -/
  stringToUTF8 : JSString → List Nat
  /-- Whether `setItem(k, v)` on the given map throws (quota exceeded). -/
  setItemThrows : Storage → JSString → JSString → Bool

/-- The codecs are the identity on single-byte text, the only payload the
    source supports (see its note at `jV.length`): a C string of 7-bit bytes
    decodes to the same code units, and a JavaScript string of 7-bit code units
    encodes to the same bytes. -/
def JSEnv.AsciiExact (env : JSEnv) : Prop :=
  (∀ s : CStr, IsAscii s → env.UTF8ToString s = s) ∧
  (∀ j : JSString, IsSingleByte j → env.stringToUTF8 j = j)

/-- An environment whose codecs are the identity and whose maps never refuse a
    write. -/
def plainEnv : JSEnv :=
  { UTF8ToString := fun s => s
    stringToUTF8 := fun s => s
    setItemThrows := fun _ _ _ => false }

/-- An environment whose codecs are the identity and whose maps refuse every
    write: each `setItem` throws. -/
def refusingEnv : JSEnv :=
  { UTF8ToString := fun s => s
    stringToUTF8 := fun s => s
    setItemThrows := fun _ _ _ => true }

/-- Emscripten `getValue(ptr)` with its default type `i8`: the signed byte at
    `ptr`.  For a C string that is its first byte, or the terminator when the
    string is empty.  (The source never reaches it with a NULL pointer; `0`
    stands for that case.) -/
def getValue (p : Option CStr) : Int :=
  match p with
  | none => 0
  | some [] => 0
  | some (b :: _) => if b % 256 < 128 then ((b % 256 : Nat) : Int) else ((b % 256 : Nat) : Int) - 256

/-- Emscripten `setValue(zBuf + off, v)` with its default type `i8`. -/
def setValue (buf : Buffer) (off : Nat) (v : Nat) : Buffer :=
  fun i => if i = off then v % 256 else buf i

/-- JavaScript `HEAPU8.copyWithin(zBuf, zV, zV + n)`, where `src` holds the
    bytes found at `zV`: the first `n` bytes of `src` land at offsets `0..n-1`. -/
def copyWithin (buf : Buffer) (src : List Nat) (n : Nat) : Buffer :=
  fun i => if i < n then src.getD i 0 else buf i

/-- Emscripten `stackAlloc(n)`: a fresh block on the WASM stack.  The stack
    pointer is never 0, so the result is never the NULL pointer. -/
def stackAlloc (_n : Int) : Option CStr := some []

/-- The map chosen by the conditional expression
    `(115 === getValue(zClass)) ? sessionStorage : localStorage`. -/
def Host.storage (h : Host) (zClass : Option CStr) : Option Storage :=
  if getValue zClass = 115 then h.sessionStorage else h.localStorage

/-- The host after the map chosen for `zClass` has become `s`. -/
def Host.setStorage (h : Host) (zClass : Option CStr) (s : Storage) : Host :=
  if getValue zClass = 115 then { h with sessionStorage := some s }
  else { h with localStorage := some s }

/-! ## Key derivation -/

/-- Size of a storage-key buffer, `KVSTORAGE_KEY_SZ`. -/
def KVSTORAGE_KEY_SZ : Int := 32

/-- The literal `"kvvfs-"` that starts the format string. -/
def kvvfsLiteral : CStr := [107, 118, 118, 102, 115, 45]

/-- Modelled from the spec: `sqlite3_snprintf` is defined in sqlite3.c, which is
    not among the sources; the spec gives a key "maximum 31 usable characters +
    terminator" for the 32-byte buffer.  `text` is the expanded format; the
    result is the C string left in `zBuf`: at most `n-1` bytes of `text`, then
    the terminator.  With `n ≤ 0` the buffer is not touched. -/
def sqlite3_snprintf (n : Int) (zBuf : CStr) (text : List Nat) : CStr :=
  if n ≤ 0 then zBuf else text.take (n - 1).toNat

/-- Bytes a `%s` conversion contributes for its argument (nothing for NULL). -/
def fmtS (p : Option CStr) : CStr :=
  match p with
  | none => []
  | some s => s

/-- Source `kvstorageMakeKey`:
    `sqlite3_snprintf(KVSTORAGE_KEY_SZ, zKeyOut, "kvvfs-%s-%s", zClass, zKeyIn)`.
    Returns the new contents of `zKeyOut`. -/
def kvstorageMakeKey (zClass zKeyIn : Option CStr) (zKeyOut : CStr) : CStr :=
  sqlite3_snprintf KVSTORAGE_KEY_SZ zKeyOut
    (kvvfsLiteral ++ fmtS zClass ++ [45] ++ fmtS zKeyIn)

/-- Source `sqlite3_wasm__kvvfsMakeKey`: a no-op on a NULL `zKeyOut`; always
    returns `KVSTORAGE_KEY_SZ`.  The second component is `zKeyOut` afterwards. -/
def sqlite3_wasm__kvvfsMakeKey (zClass zKeyIn : Option CStr) (zKeyOut : Option CStr) :
    Int × Option CStr :=
  match zKeyOut with
  | none => (KVSTORAGE_KEY_SZ, none)
  | some out => (KVSTORAGE_KEY_SZ, some (kvstorageMakeKey zClass zKeyIn out))

/-- Source `kvstorageMakeKeyOnJSStack`: NULL when either argument is NULL,
    otherwise a stack block of `KVSTORAGE_KEY_SZ` bytes holding the key. -/
def kvstorageMakeKeyOnJSStack (zClass zKeyIn : Option CStr) : Option CStr :=
  match zClass, zKeyIn with
  | none, _ => none
  | _, none => none
  | some c, some k =>
    match stackAlloc (sqlite3_wasm__kvvfsMakeKey none none none).1 with
    | none => none
    | some zXKey => (sqlite3_wasm__kvvfsMakeKey (some c) (some k) (some zXKey)).2

/-- The JavaScript key `jKey` that the three storage operations compute for a
    non-NULL class and key: `UTF8ToString` of the derived key. -/
def storageKey (env : JSEnv) (c k : CStr) : JSString :=
  env.UTF8ToString (kvstorageMakeKey (some c) (some k) [])

/-- A host whose session map holds "hello world" under the key derived from
    class "session" and key "hello", and whose local map is empty. -/
def helloHost : Host :=
  { sessionStorage := some [(cstr "kvvfs-session-hello", cstr "hello world")]
    localStorage := some [] }

/-- A host whose session map holds the empty string under the key derived from
    class "session" and key "hello". -/
def emptyValueHost : Host :=
  { sessionStorage := some [(cstr "kvvfs-session-hello", [])]
    localStorage := some [] }

/-- The full text of the format `"kvvfs-%s-%s"` for a class and a key. -/
def fullKey (c k : CStr) : CStr := kvvfsLiteral ++ c ++ [45] ++ k

/-! ## The three storage operations -/

/-- Source `kvstorageWrite`.  Returns the result code and the host afterwards. -/
def kvstorageWrite (env : JSEnv) (h : Host) (zClass zKey : Option CStr) (zData : CStr) :
    Int × Host :=
  match kvstorageMakeKeyOnJSStack zClass zKey with
  | none => (1, h)                                   -- if(!zXKey) return 1
  | some zXKey =>
    let jKey := env.UTF8ToString zXKey
    match h.storage zClass with
    | none => (1, h)                                 -- catch(e): return 1
    | some st =>
      let jData := env.UTF8ToString zData
      if env.setItemThrows st jKey jData then (1, h) -- catch(e): return 1
      else (0, h.setStorage zClass (st.setItem jKey jData))

/-- Source `kvstorageDelete`.  Returns the result code and the host afterwards.
    The key is derived a second time into the same stack block, as in the
    source. -/
def kvstorageDelete (env : JSEnv) (h : Host) (zClass zKey : Option CStr) : Int × Host :=
  match kvstorageMakeKeyOnJSStack zClass zKey with
  | none => (1, h)                                   -- if(!zXKey) return 1
  | some zXKey0 =>
    let zXKey := ((sqlite3_wasm__kvvfsMakeKey zClass zKey (some zXKey0)).2).getD zXKey0
    let jKey := env.UTF8ToString zXKey
    match h.storage zClass with
    | none => (1, h)                                 -- catch(e): return 1
    | some st => (0, h.setStorage zClass (st.removeItem jKey))

/-- Source `kvstorageRead`.  Returns the result code and the memory at `zBuf`
    afterwards.  `!jV` holds for JavaScript `null` and for the empty string. -/
def kvstorageRead (env : JSEnv) (h : Host) (zClass zKey : Option CStr)
    (zBuf : Buffer) (nBuf : Int) : Int × Buffer :=
  match kvstorageMakeKeyOnJSStack zClass zKey with
  | none => (1, zBuf)                                -- if(!zXKey) return 1
  | some zXKey =>
    let jKey := env.UTF8ToString zXKey
    match h.storage zClass with
    | none => (-1, zBuf)                             -- catch(e): return -1
    | some st =>
      match st.getItem jKey with
      | none => (-1, zBuf)                           -- if(!jV) return -1
      | some jV =>
        if jV = [] then (-1, zBuf)                   -- if(!jV) return -1
        else
          let nV : Int := jV.length
          if nBuf ≤ 0 then (nV, zBuf)
          else if nBuf = 1 then (nV, setValue zBuf 0 0)
          else
            let zV := env.stringToUTF8 jV ++ [0]     -- allocateUTF8OnStack(jV)
            let nBuf1 := if nBuf > nV + 1 then nV + 1 else nBuf
            let zBuf1 := copyWithin zBuf zV (nBuf1 - 1).toNat
            (nBuf1 - 1, setValue zBuf1 (nBuf1 - 1).toNat 0)

/-- Source `sqlite3_wasm__emjs_test`, with the host threaded through.  Returns
    `rc`, the host afterwards and, for `whichOp = 2`, the contents of the local
    128-byte `buffer` after the read. -/
def sqlite3_wasm__emjs_test (env : JSEnv) (h : Host) (whichOp : Int) :
    Int × Host × Buffer :=
  let zClass := some (cstr "session")
  let zKey := some (cstr "hello")
  if whichOp = 1 then
    (0, (kvstorageWrite env h zClass zKey (cstr "world")).2, fun _ => 0)
  else if whichOp = 2 then
    let r := kvstorageRead env h zClass zKey (fun _ => 0) 128
    (r.1, h, r.2)
  else if whichOp = 3 then
    (0, (kvstorageDelete env h zClass zKey).2, fun _ => 0)
  else (0, h, fun _ => 0)

/-! ## sqlite3_wasm_vfs_unlink -/

/-- The part of `sqlite3_vfs` the source looks at: the `xDelete` method, `none`
    for a NULL function pointer.  The method maps `(zName, syncDir)` to its
    result code. -/
structure sqlite3_vfs where
  xDelete : Option (CStr → Int → Int)

/-- Source `sqlite3_wasm_vfs_unlink`.  `pVfs` is what `sqlite3_vfs_find(0)`
    returned (`none` for NULL).  Returns `rc` and the `xDelete` calls made, each
    with its `(zName, syncDir)` arguments. -/
def sqlite3_wasm_vfs_unlink (pVfs : Option sqlite3_vfs) (zName : Option CStr) :
    Int × List (CStr × Int) :=
  match zName, pVfs with
  | some name, some vfs =>
    match vfs.xDelete with
    | some xDelete => (xDelete name 1, [(name, 1)])
    | none => (SQLITE_MISUSE, [])
  | _, _ => (SQLITE_MISUSE, [])

/-- A default VFS whose `xDelete` reports success (0) for every path. -/
def okVfs : sqlite3_vfs := { xDelete := some (fun _ _ => 0) }

/-! ## sqlite3_wasm_init_opfs -/

/-- Calls into WASMFS made by `sqlite3_wasm_init_opfs`. -/
inductive FsCall where
  /-- A call `wasmfs_create_opfs_backend()`. -/
  | createBackend
  /-- A call `wasmfs_create_directory(path, mode, backend)`. -/
  | createDirectory (path : CStr) (mode : Nat) (backend : Nat)
  deriving DecidableEq, Repr

/-- Process state seen by `sqlite3_wasm_init_opfs`. -/
structure OpfsState where
  /-- The `static backend_t pOpfs`, 0 while no backend exists. -/
  pOpfs : Nat
  /-- Paths for which `access(path, F_OK)` is 0. -/
  existing : List CStr
  /-- WASMFS calls made so far, oldest first. -/
  calls : List FsCall
  deriving DecidableEq, Repr

/-- What the host would answer during one call of `sqlite3_wasm_init_opfs`. -/
structure OpfsHost where
  /-- Result of `wasmfs_create_opfs_backend()`, 0 on failure. -/
  backend : Nat
  /-- Result of `wasmfs_create_directory(...)`, 0 on success. -/
  mkdirRc : Int
  deriving DecidableEq, Repr

/-- POSIX `access(path, F_OK)`: 0 when the path exists, -1 otherwise. -/
def access (s : OpfsState) (path : CStr) : Int :=
  if path ∈ s.existing then 0 else -1

/-- Host `wasmfs_create_directory(path, mode, backend)`: the call is recorded,
    and the path exists afterwards when the host reports success. -/
def wasmfs_create_directory (host : OpfsHost) (s : OpfsState) (path : CStr) (mode : Nat)
    (backend : Nat) : Int × OpfsState :=
  (host.mkdirRc,
   { s with
     calls := s.calls ++ [FsCall.createDirectory path mode backend]
     existing := if host.mkdirRc = 0 then path :: s.existing else s.existing })

/-- The first statement of `sqlite3_wasm_init_opfs`:
    `if( !zMountPoint || !*zMountPoint ) zMountPoint = "/persistent";`. -/
def mountPointOrDefault (zMountPoint : Option CStr) : CStr :=
  match zMountPoint with
  | none => cstr "/persistent"
  | some [] => cstr "/persistent"
  | some p => p

/-- Source `sqlite3_wasm_init_opfs` (the `SQLITE_WASM_OPFS` build). -/
def sqlite3_wasm_init_opfs (host : OpfsHost) (s : OpfsState) (zMountPoint : Option CStr) :
    Int × OpfsState :=
  let zMountPoint : CStr := mountPointOrDefault zMountPoint
  let s1 : OpfsState :=
    if s.pOpfs = 0 then
      { s with pOpfs := host.backend, calls := s.calls ++ [FsCall.createBackend] }
    else s
  if s1.pOpfs ≠ 0 ∧ access s1 zMountPoint ≠ 0 then
    let r := wasmfs_create_directory host s1 zMountPoint 511 s1.pOpfs
    if r.1 ≠ 0 then (SQLITE_IOERR, r.2)
    else (if r.2.pOpfs ≠ 0 then 0 else SQLITE_NOMEM, r.2)
  else (if s1.pOpfs ≠ 0 then 0 else SQLITE_NOMEM, s1)

/-- A state before any call: no backend, no mount directory, nothing called. -/
def freshOpfs : OpfsState := { pOpfs := 0, existing := [], calls := [] }

/-- A host that hands out backend 1 and creates directories. -/
def goodOpfsHost : OpfsHost := { backend := 1, mkdirRc := 0 }

/-- A host that can do neither. -/
def badOpfsHost : OpfsHost := { backend := 0, mkdirRc := -1 }

/-- The backend handle once `sqlite3_wasm_init_opfs` has passed its first
    `if`: the handle it found, or the one the host hands out when it found
    none. -/
def backendAfterCreate (host : OpfsHost) (s : OpfsState) : Nat :=
  if s.pOpfs = 0 then host.backend else s.pOpfs

/-- Source `sqlite3_wasm_init_opfs` of a build without `SQLITE_WASM_OPFS`. -/
def sqlite3_wasm_init_opfs_disabled : Int := SQLITE_NOTFOUND

/-- The three storage operations, called with class `c`, key `k` and data `d`,
    act on the map `pick` of the host and on nothing else: the other map `rest`
    is the same before and after a write or a delete; on an available map a
    write that is not refused sets the entry of the derived key and a delete
    removes it; and the result of each operation, with the map `pick`
    afterwards, is the same on two hosts that agree on `pick`. -/
def ActsOn (pick rest : Host → Option Storage) (env : JSEnv) (c k d : CStr) : Prop :=
  ∀ (h h2 : Host) (zBuf : Buffer) (nBuf : Int),
    rest (kvstorageWrite env h (some c) (some k) d).2 = rest h ∧
    rest (kvstorageDelete env h (some c) (some k)).2 = rest h ∧
    (∀ st, pick h = some st →
      env.setItemThrows st (storageKey env c k) (env.UTF8ToString d) = false →
      pick (kvstorageWrite env h (some c) (some k) d).2
        = some (st.setItem (storageKey env c k) (env.UTF8ToString d))) ∧
    (∀ st, pick h = some st →
      pick (kvstorageDelete env h (some c) (some k)).2
        = some (st.removeItem (storageKey env c k))) ∧
    (pick h2 = pick h →
      kvstorageRead env h2 (some c) (some k) zBuf nBuf
        = kvstorageRead env h (some c) (some k) zBuf nBuf ∧
      (kvstorageWrite env h2 (some c) (some k) d).1
        = (kvstorageWrite env h (some c) (some k) d).1 ∧
      pick (kvstorageWrite env h2 (some c) (some k) d).2
        = pick (kvstorageWrite env h (some c) (some k) d).2 ∧
      (kvstorageDelete env h2 (some c) (some k)).1
        = (kvstorageDelete env h (some c) (some k)).1 ∧
      pick (kvstorageDelete env h2 (some c) (some k)).2
        = pick (kvstorageDelete env h (some c) (some k)).2)

/-- What `kvstorageRead`, called with class `c` and key `k`, returns is what the
    map `pick` of the host holds under the derived key: -1 with the buffer as
    it was when that map cannot be reached or has no entry under the key; and
    for a non-empty value `jV` found there, the length of `jV` with the buffer
    as it was for a capacity of at most 0, the length of `jV` with a NUL at
    offset 0 for capacity 1, and otherwise, with `m` the smaller of `nBuf - 1`
    and the length of `jV`, the result `m` with the first `m` bytes of the
    encoded `jV` at offsets `0..m-1` and a NUL at offset `m`. -/
def ReadsFrom (pick : Host → Option Storage) (env : JSEnv) (c k : CStr) : Prop :=
  ∀ (h : Host) (zBuf : Buffer) (nBuf : Int),
    (pick h = none → kvstorageRead env h (some c) (some k) zBuf nBuf = (-1, zBuf)) ∧
    (∀ st, pick h = some st → st.getItem (storageKey env c k) = none →
      kvstorageRead env h (some c) (some k) zBuf nBuf = (-1, zBuf)) ∧
    (∀ st jV, pick h = some st → st.getItem (storageKey env c k) = some jV → jV ≠ [] →
      kvstorageRead env h (some c) (some k) zBuf nBuf =
        if nBuf ≤ 0 then ((jV.length : Int), zBuf)
        else if nBuf = 1 then ((jV.length : Int), setValue zBuf 0 0)
        else
          (((if nBuf > (jV.length : Int) + 1 then (jV.length : Int) + 1 else nBuf) - 1),
            setValue
              (copyWithin zBuf (env.stringToUTF8 jV ++ [0])
                ((if nBuf > (jV.length : Int) + 1 then (jV.length : Int) + 1 else nBuf)
                  - 1).toNat)
              ((if nBuf > (jV.length : Int) + 1 then (jV.length : Int) + 1 else nBuf)
                - 1).toNat 0))

/-- A host whose session map holds "abc" and whose local map holds "vwxyz", each
    under the key that its own class derives from key "hello": "session" for the
    session map, "local" for the local map. -/
def twoMapsHost : Host :=
  { sessionStorage := some [(cstr "kvvfs-session-hello", cstr "abc")]
    localStorage := some [(cstr "kvvfs-local-hello", cstr "vwxyz")] }

/-! ## Lemmas on the host maps -/

/-- The codecs of `plainEnv` are exact on single-byte text. -/
theorem plainEnv_asciiExact : plainEnv.AsciiExact :=
  ⟨fun _ _ => rfl, fun _ _ => rfl⟩

theorem getD_append_left (xs ys : List Nat) (i : Nat) (hi : i < xs.length) :
    (xs ++ ys).getD i 0 = xs.getD i 0 := by
  simp [List.getD_eq_getElem?_getD, List.getElem?_append_left hi]

theorem Storage.getItem_setItem_self (s : Storage) (k v : JSString) :
    (Storage.setItem s k v).getItem k = some v := by
  induction s with
  | nil => simp [Storage.setItem, Storage.getItem]
  | cons e rest ih =>
    obtain ⟨k1, v1⟩ := e
    by_cases hk : k1 = k
    · simp [Storage.setItem, Storage.getItem, hk]
    · simp [Storage.setItem, Storage.getItem, hk, ih]

theorem Storage.getItem_removeItem_self (s : Storage) (k : JSString) :
    (Storage.removeItem s k).getItem k = none := by
  induction s with
  | nil => simp [Storage.removeItem, Storage.getItem]
  | cons e rest ih =>
    obtain ⟨k1, v1⟩ := e
    by_cases hk : k1 = k
    · simpa [Storage.removeItem, List.filter_cons, hk] using ih
    · simpa [Storage.removeItem, List.filter_cons, hk, Storage.getItem] using ih

theorem Storage.removeItem_idem (s : Storage) (k : JSString) :
    Storage.removeItem (Storage.removeItem s k) k = Storage.removeItem s k := by
  simp [Storage.removeItem, List.filter_filter]

theorem Host.storage_setStorage (h : Host) (zClass : Option CStr) (s : Storage) :
    (h.setStorage zClass s).storage zClass = some s := by
  unfold Host.setStorage Host.storage
  split <;> simp_all

theorem Host.setStorage_setStorage (h : Host) (zClass : Option CStr) (s t : Storage) :
    (h.setStorage zClass s).setStorage zClass t = h.setStorage zClass t := by
  unfold Host.setStorage
  split <;> simp_all

theorem kvstorageMakeKeyOnJSStack_some (c k : CStr) :
    kvstorageMakeKeyOnJSStack (some c) (some k) = some (kvstorageMakeKey (some c) (some k) []) := by
  rfl

theorem kvstorageWrite_eq (env : JSEnv) (h : Host) (c k d : CStr) (st : Storage)
    (hst : h.storage (some c) = some st)
    (hset : env.setItemThrows st (storageKey env c k) (env.UTF8ToString d) = false) :
    kvstorageWrite env h (some c) (some k) d
      = (0, h.setStorage (some c) (st.setItem (storageKey env c k) (env.UTF8ToString d))) := by
  unfold storageKey at hset
  simp [kvstorageWrite, kvstorageMakeKeyOnJSStack_some, hst, storageKey, hset]

theorem kvstorageRead_eq (env : JSEnv) (h : Host) (c k : CStr) (st : Storage) (jV : JSString)
    (zBuf : Buffer) (nBuf : Int)
    (hst : h.storage (some c) = some st)
    (hget : st.getItem (storageKey env c k) = some jV) (hne : jV ≠ []) :
    kvstorageRead env h (some c) (some k) zBuf nBuf =
      if nBuf ≤ 0 then ((jV.length : Int), zBuf)
      else if nBuf = 1 then ((jV.length : Int), setValue zBuf 0 0)
      else
        (((if nBuf > (jV.length : Int) + 1 then (jV.length : Int) + 1 else nBuf) - 1),
          setValue
            (copyWithin zBuf (env.stringToUTF8 jV ++ [0])
              ((if nBuf > (jV.length : Int) + 1 then (jV.length : Int) + 1 else nBuf) - 1).toNat)
            ((if nBuf > (jV.length : Int) + 1 then (jV.length : Int) + 1 else nBuf) - 1).toNat 0) := by
  unfold storageKey at hget
  simp only [kvstorageRead, kvstorageMakeKeyOnJSStack_some, hst, hget, hne, if_false]

/-! ## Round trip, truncation, probe mode, absent key -/

/-- Round trip for a non-empty payload: with a single-byte, NUL-free, non-empty
    payload `d`, an available map and an accepted `setItem`, `kvstorageWrite`
    returns 0 and a following `kvstorageRead` with capacity `len(d)+1` returns
    `len(d)` and leaves `d` followed by a NUL in the buffer, the memory after it
    untouched. -/
theorem kvstorage_roundtrip_nonempty (env : JSEnv) (hx : env.AsciiExact) (h : Host)
    (c k d : CStr) (st : Storage) (zBuf : Buffer)
    (hd : IsAscii d) (hne : d ≠ [])
    (hst : h.storage (some c) = some st)
    (hset : env.setItemThrows st (storageKey env c k) (env.UTF8ToString d) = false) :
    (kvstorageWrite env h (some c) (some k) d).1 = 0 ∧
    kvstorageRead env (kvstorageWrite env h (some c) (some k) d).2 (some c) (some k) zBuf
        ((d.length : Int) + 1)
      = ((d.length : Int),
          fun i => if i < d.length then d.getD i 0 else if i = d.length then 0 else zBuf i) := by
  have hdec : env.UTF8ToString d = d := hx.1 d hd
  have hsb : IsSingleByte d := fun u hu => (hd u hu).2
  have henc : env.stringToUTF8 d = d := hx.2 d hsb
  rw [kvstorageWrite_eq env h c k d st hst hset, hdec]
  refine ⟨rfl, ?_⟩
  have hlen : 0 < d.length := List.length_pos.mpr hne
  rw [kvstorageRead_eq env _ c k _ d zBuf _ (Host.storage_setStorage h (some c) _)
    (Storage.getItem_setItem_self st _ d) hne]
  have h1 : ¬ ((d.length : Int) + 1 ≤ 0) := by omega
  have h2 : ¬ ((d.length : Int) + 1 = 1) := by omega
  have h3 : ¬ ((d.length : Int) + 1 > (d.length : Int) + 1) := by omega
  simp only [h1, h2, h3, if_false, henc]
  have h4 : ((d.length : Int) + 1 - 1).toNat = d.length := by omega
  rw [h4]
  refine Prod.ext (by simp) ?_
  funext i
  simp only [setValue, copyWithin]
  by_cases hi : i = d.length
  · subst hi; simp
  · by_cases hlt : i < d.length
    · rw [if_neg hi, if_pos hlt, if_pos hlt, getD_append_left d [0] i hlt]
    · simp [hi, hlt]

/-- C1 (round trip of kvstorageWrite and kvstorageRead), at the empty payload:
    writing the empty C string under class "session" and key "hello" returns 0
    and stores the empty string under the derived key, yet the following read
    with capacity `len(d)+1 = 1` returns -1 instead of 0 and does not store the
    NUL terminator at index 0 of the buffer. -/
theorem kvstorage_roundtrip_empty_payload :
    (kvstorageWrite plainEnv ⟨some [], some []⟩ (some (cstr "session")) (some (cstr "hello")) []).1 = 0 ∧
    ((kvstorageWrite plainEnv ⟨some [], some []⟩ (some (cstr "session")) (some (cstr "hello"))
        []).2.sessionStorage.bind
      (fun st => st.getItem (storageKey plainEnv (cstr "session") (cstr "hello")))) = some [] ∧
    (kvstorageRead plainEnv
      (kvstorageWrite plainEnv ⟨some [], some []⟩ (some (cstr "session")) (some (cstr "hello")) []).2
      (some (cstr "session")) (some (cstr "hello")) (fun _ => 7) 1).1 = -1 ∧
    (kvstorageRead plainEnv
      (kvstorageWrite plainEnv ⟨some [], some []⟩ (some (cstr "session")) (some (cstr "hello")) []).2
      (some (cstr "session")) (some (cstr "hello")) (fun _ => 7) 1).2 0 = 7 := by
  decide

/-- The sequence of `sqlite3_wasm__emjs_test`: operation 1 on an empty host, then
    operation 2, reads back "world" with result 5; after operation 3 the read
    gives -1. -/
theorem sqlite3_wasm__emjs_test_sequence :
    (sqlite3_wasm__emjs_test plainEnv
      (sqlite3_wasm__emjs_test plainEnv ⟨some [], some []⟩ 1).2.1 2).1 = 5 ∧
    (List.range 6).map (sqlite3_wasm__emjs_test plainEnv
      (sqlite3_wasm__emjs_test plainEnv ⟨some [], some []⟩ 1).2.1 2).2.2
      = cstr "world" ++ [0] ∧
    (sqlite3_wasm__emjs_test plainEnv
      (sqlite3_wasm__emjs_test plainEnv
        (sqlite3_wasm__emjs_test plainEnv ⟨some [], some []⟩ 1).2.1 3).2.1 2).1 = -1 := by
  decide

/-- C2 (truncating read): when the map chosen by the class holds a single-byte
    value `jV` under the derived key and the capacity `cap ≥ 2` is such that
    `len(jV) > cap-1`, `kvstorageRead` returns `cap-1`, the buffer holds the
    first `cap-1` bytes of the value at offsets `0..cap-2` and a NUL at offset
    `cap-1`, and the memory after it is untouched. -/
theorem kvstorageRead_truncates (env : JSEnv) (hx : env.AsciiExact) (h : Host)
    (c k : CStr) (st : Storage) (jV : JSString) (zBuf : Buffer) (cap : Nat)
    (hst : h.storage (some c) = some st)
    (hget : st.getItem (storageKey env c k) = some jV)
    (hsb : IsSingleByte jV) (hcap : 2 ≤ cap) (hn : cap - 1 < jV.length) :
    kvstorageRead env h (some c) (some k) zBuf (cap : Int)
      = ((cap : Int) - 1,
          fun i => if i < cap - 1 then jV.getD i 0 else if i = cap - 1 then 0 else zBuf i) := by
  have hne : jV ≠ [] := by
    intro h0; subst h0; simp at hn
  have henc : env.stringToUTF8 jV = jV := hx.2 jV hsb
  rw [kvstorageRead_eq env h c k st jV zBuf _ hst hget hne]
  have h1 : ¬ ((cap : Int) ≤ 0) := by omega
  have h2 : ¬ ((cap : Int) = 1) := by omega
  have h3 : ¬ ((cap : Int) > (jV.length : Int) + 1) := by omega
  simp only [h1, h2, h3, if_false, henc]
  have h4 : ((cap : Int) - 1).toNat = cap - 1 := by omega
  rw [h4]
  refine Prod.ext rfl ?_
  funext i
  simp only [setValue, copyWithin]
  by_cases hi : i = cap - 1
  · subst hi; simp
  · by_cases hlt : i < cap - 1
    · rw [if_neg hi, if_pos hlt, if_pos hlt, getD_append_left jV [0] i (by omega)]
    · rw [if_neg hi, if_neg hlt, if_neg hlt, if_neg hi]

/-- Witness of C2: "hello world" stored under class "session", key "hello", read
    with capacity 6, gives 5 and "hello" followed by a NUL. -/
theorem kvstorageRead_truncates_witness :
    (helloHost.storage (some (cstr "session"))
        = some [(cstr "kvvfs-session-hello", cstr "hello world")] ∧
      Storage.getItem [(cstr "kvvfs-session-hello", cstr "hello world")]
        (storageKey plainEnv (cstr "session") (cstr "hello")) = some (cstr "hello world") ∧
      IsSingleByte (cstr "hello world") ∧ 2 ≤ 6 ∧ 6 - 1 < (cstr "hello world").length) ∧
    kvstorageRead plainEnv helloHost (some (cstr "session")) (some (cstr "hello"))
        (fun _ => 255) ((6 : Nat) : Int)
      = (((6 : Nat) : Int) - 1,
          fun i => if i < 6 - 1 then (cstr "hello world").getD i 0
                   else if i = 6 - 1 then 0 else 255) :=
  ⟨⟨by decide, by decide, by decide, by decide, by decide⟩,
   kvstorageRead_truncates plainEnv plainEnv_asciiExact helloHost (cstr "session") (cstr "hello")
     [(cstr "kvvfs-session-hello", cstr "hello world")] (cstr "hello world") (fun _ => 255) 6
     (by decide) (by decide) (by decide) (by decide) (by decide)⟩

/-- Probe mode for a non-empty value: when the map chosen by the class holds a
    non-empty value under the derived key, a read with capacity at most 0
    returns the full length and leaves the buffer alone, and a read with
    capacity 1 returns the full length and only stores a NUL at offset 0. -/
theorem kvstorageRead_probe_nonempty (env : JSEnv) (h : Host) (c k : CStr) (st : Storage)
    (jV : JSString) (zBuf : Buffer) (nBuf : Int)
    (hst : h.storage (some c) = some st)
    (hget : st.getItem (storageKey env c k) = some jV) (hne : jV ≠ []) :
    (nBuf ≤ 0 → kvstorageRead env h (some c) (some k) zBuf nBuf = ((jV.length : Int), zBuf)) ∧
    kvstorageRead env h (some c) (some k) zBuf 1
      = ((jV.length : Int), fun i => if i = 0 then 0 else zBuf i) := by
  constructor
  · intro h0
    rw [kvstorageRead_eq env h c k st jV zBuf _ hst hget hne, if_pos h0]
  · have h1 : ¬ ((1 : Int) ≤ 0) := by decide
    rw [kvstorageRead_eq env h c k st jV zBuf _ hst hget hne, if_neg h1, if_pos rfl]
    refine Prod.ext rfl ?_
    funext i
    simp [setValue]

/-- C3 (probe mode of kvstorageRead), at a stored empty value: with the empty
    string stored under the derived key of class "session" and key "hello", a
    read with capacity 0 and a read with capacity 1 both return -1 instead of
    the stored length 0, and the read with capacity 1 does not store the NUL
    terminator at offset 0. -/
theorem kvstorageRead_probe_empty_value :
    (emptyValueHost.sessionStorage.bind
      (fun st => st.getItem (storageKey plainEnv (cstr "session") (cstr "hello")))) = some [] ∧
    kvstorageRead plainEnv emptyValueHost (some (cstr "session")) (some (cstr "hello"))
      (fun _ => 7) 0 = (-1, fun _ => 7) ∧
    (kvstorageRead plainEnv emptyValueHost (some (cstr "session")) (some (cstr "hello"))
      (fun _ => 7) 1).1 = -1 ∧
    (kvstorageRead plainEnv emptyValueHost (some (cstr "session")) (some (cstr "hello"))
      (fun _ => 7) 1).2 0 = 7 := by
  refine ⟨by decide, rfl, by decide, by decide⟩

/-- C4 (absent key): for a non-NULL class and key whose derived key has no entry
    in the map chosen by the class (the map holds no such entry, or cannot be
    reached at all), `kvstorageRead` returns the negative value -1 for every
    capacity and leaves the buffer as it was. -/
theorem kvstorageRead_absent (env : JSEnv) (h : Host) (c k : CStr) (zBuf : Buffer)
    (nBuf : Int)
    (habs : ∀ st, h.storage (some c) = some st → st.getItem (storageKey env c k) = none) :
    (kvstorageRead env h (some c) (some k) zBuf nBuf).1 < 0 ∧
    kvstorageRead env h (some c) (some k) zBuf nBuf = (-1, zBuf) := by
  have key : kvstorageRead env h (some c) (some k) zBuf nBuf = (-1, zBuf) := by
    unfold storageKey at habs
    cases hs : h.storage (some c) with
    | none => simp [kvstorageRead, kvstorageMakeKeyOnJSStack_some, hs]
    | some st => simp [kvstorageRead, kvstorageMakeKeyOnJSStack_some, hs, habs st hs]
  rw [key]
  exact ⟨by norm_num, rfl⟩

/-- Witness of C4: reading key "missing" of class "session" with capacity 16
    from a host that only holds key "hello". -/
theorem kvstorageRead_absent_witness :
    (∀ st, helloHost.storage (some (cstr "session")) = some st →
      st.getItem (storageKey plainEnv (cstr "session") (cstr "missing")) = none) ∧
    (kvstorageRead plainEnv helloHost (some (cstr "session")) (some (cstr "missing"))
      (fun _ => 7) 16).1 < 0 ∧
    kvstorageRead plainEnv helloHost (some (cstr "session")) (some (cstr "missing"))
      (fun _ => 7) 16 = (-1, fun _ => 7) :=
  have habs : ∀ st, helloHost.storage (some (cstr "session")) = some st →
      st.getItem (storageKey plainEnv (cstr "session") (cstr "missing")) = none := by
    intro st hst
    have h1 : helloHost.storage (some (cstr "session"))
        = some [(cstr "kvvfs-session-hello", cstr "hello world")] := by decide
    rw [h1] at hst
    cases hst
    decide
  ⟨habs, kvstorageRead_absent plainEnv helloHost (cstr "session") (cstr "missing")
    (fun _ => 7) 16 habs⟩

/-! ## Delete and dispatch -/

theorem kvstorageMakeKey_out (zClass zKeyIn : Option CStr) (out : CStr) :
    kvstorageMakeKey zClass zKeyIn out = kvstorageMakeKey zClass zKeyIn [] := by
  simp [kvstorageMakeKey, sqlite3_snprintf, KVSTORAGE_KEY_SZ]

theorem kvstorageWrite_cases (env : JSEnv) (h : Host) (c k d : CStr) :
    kvstorageWrite env h (some c) (some k) d =
      match h.storage (some c) with
      | none => (1, h)
      | some st =>
        if env.setItemThrows st (storageKey env c k) (env.UTF8ToString d) then (1, h)
        else (0, h.setStorage (some c)
                (st.setItem (storageKey env c k) (env.UTF8ToString d))) := by
  simp only [kvstorageWrite, kvstorageMakeKeyOnJSStack_some, storageKey]

theorem kvstorageDelete_cases (env : JSEnv) (h : Host) (c k : CStr) :
    kvstorageDelete env h (some c) (some k) =
      match h.storage (some c) with
      | none => (1, h)
      | some st => (0, h.setStorage (some c) (st.removeItem (storageKey env c k))) := by
  simp only [kvstorageDelete, kvstorageMakeKeyOnJSStack_some, storageKey,
    sqlite3_wasm__kvvfsMakeKey, Option.getD_some, kvstorageMakeKey_out (some c) (some k)]

theorem kvstorageRead_congr (env : JSEnv) (h h2 : Host) (c k : CStr) (zBuf : Buffer)
    (nBuf : Int) (hs : h2.storage (some c) = h.storage (some c)) :
    kvstorageRead env h2 (some c) (some k) zBuf nBuf
      = kvstorageRead env h (some c) (some k) zBuf nBuf := by
  simp only [kvstorageRead, hs]

/-- C5 (kvstorageDelete is idempotent and succeeds on an absent key): for every
    host whose map chosen by the class can be reached (so that nothing throws)
    and every non-NULL class and key, delete returns 0 whether or not the entry
    exists, the derived key has no entry in the chosen map afterwards, and a
    second delete returns 0 and leaves the whole host, both maps, as the first
    delete left it. -/
theorem kvstorageDelete_idempotent (env : JSEnv) (h : Host) (c k : CStr) (st : Storage)
    (hst : h.storage (some c) = some st) :
    (kvstorageDelete env h (some c) (some k)).1 = 0 ∧
    (∃ st1, (kvstorageDelete env h (some c) (some k)).2.storage (some c) = some st1 ∧
      st1.getItem (storageKey env c k) = none) ∧
    kvstorageDelete env (kvstorageDelete env h (some c) (some k)).2 (some c) (some k)
      = (0, (kvstorageDelete env h (some c) (some k)).2) := by
  have e1 : kvstorageDelete env h (some c) (some k)
      = (0, h.setStorage (some c) (st.removeItem (storageKey env c k))) := by
    rw [kvstorageDelete_cases, hst]
  rw [e1]
  refine ⟨rfl, ⟨_, Host.storage_setStorage h (some c) _, Storage.getItem_removeItem_self st _⟩, ?_⟩
  rw [kvstorageDelete_cases, Host.storage_setStorage]
  simp only [Storage.removeItem_idem, Host.setStorage_setStorage]

/-- Witness of C5: deleting key "hello" of class "session" from a host that
    holds it. -/
theorem kvstorageDelete_idempotent_witness :
    helloHost.storage (some (cstr "session"))
      = some [(cstr "kvvfs-session-hello", cstr "hello world")] ∧
    ((kvstorageDelete plainEnv helloHost (some (cstr "session")) (some (cstr "hello"))).1 = 0 ∧
    (∃ st1, (kvstorageDelete plainEnv helloHost (some (cstr "session"))
        (some (cstr "hello"))).2.storage (some (cstr "session")) = some st1 ∧
      st1.getItem (storageKey plainEnv (cstr "session") (cstr "hello")) = none) ∧
    kvstorageDelete plainEnv
        (kvstorageDelete plainEnv helloHost (some (cstr "session")) (some (cstr "hello"))).2
        (some (cstr "session")) (some (cstr "hello"))
      = (0, (kvstorageDelete plainEnv helloHost (some (cstr "session"))
          (some (cstr "hello"))).2)) :=
  ⟨by decide, kvstorageDelete_idempotent plainEnv helloHost (cstr "session") (cstr "hello")
    [(cstr "kvvfs-session-hello", cstr "hello world")] (by decide)⟩

theorem getValue_eq_115 (c : CStr) (hc : IsCStr c) :
    getValue (some c) = 115 ↔ c.head? = some 115 := by
  cases c with
  | nil => simp [getValue]
  | cons b rest =>
    have hb : b < 256 := (hc b (List.mem_cons_self b rest)).2
    have hm : b % 256 = b := Nat.mod_eq_of_lt hb
    simp only [getValue, hm, List.head?_cons, Option.some.injEq]
    split <;> omega

theorem actsOn_session (env : JSEnv) (c k d : CStr) (hs : getValue (some c) = 115) :
    ActsOn Host.sessionStorage Host.localStorage env c k d := by
  intro h h2 zBuf nBuf
  have pk : ∀ x : Host, x.storage (some c) = x.sessionStorage := by
    intro x; simp [Host.storage, hs]
  have st : ∀ (x : Host) (s : Storage),
      x.setStorage (some c) s = { x with sessionStorage := some s } := by
    intro x s; simp [Host.setStorage, hs]
  refine ⟨?_, ?_, ?_, ?_, ?_⟩
  · rw [kvstorageWrite_cases, pk]
    cases h.sessionStorage with
    | none => rfl
    | some s0 => dsimp only; split <;> simp [st]
  · rw [kvstorageDelete_cases, pk]
    cases h.sessionStorage with
    | none => rfl
    | some s0 => simp [st]
  · intro s0 h0 hset
    rw [kvstorageWrite_cases, pk, h0]
    simp [hset, st]
  · intro s0 h0
    rw [kvstorageDelete_cases, pk, h0]
    simp [st]
  · intro heq
    have hs2 : h2.storage (some c) = h.storage (some c) := by rw [pk, pk, heq]
    refine ⟨kvstorageRead_congr env h h2 c k zBuf nBuf hs2, ?_⟩
    rw [kvstorageWrite_cases, kvstorageWrite_cases, kvstorageDelete_cases,
      kvstorageDelete_cases, pk, pk, heq]
    cases h.sessionStorage with
    | none => simp [heq]
    | some s0 =>
      dsimp only
      refine ⟨?_, ?_, ?_, ?_⟩
      · split <;> rfl
      · split <;> simp [st, heq]
      · rfl
      · simp [st]

theorem actsOn_local (env : JSEnv) (c k d : CStr) (hs : getValue (some c) ≠ 115) :
    ActsOn Host.localStorage Host.sessionStorage env c k d := by
  intro h h2 zBuf nBuf
  have pk : ∀ x : Host, x.storage (some c) = x.localStorage := by
    intro x; simp [Host.storage, hs]
  have st : ∀ (x : Host) (s : Storage),
      x.setStorage (some c) s = { x with localStorage := some s } := by
    intro x s; simp [Host.setStorage, hs]
  refine ⟨?_, ?_, ?_, ?_, ?_⟩
  · rw [kvstorageWrite_cases, pk]
    cases h.localStorage with
    | none => rfl
    | some s0 => dsimp only; split <;> simp [st]
  · rw [kvstorageDelete_cases, pk]
    cases h.localStorage with
    | none => rfl
    | some s0 => simp [st]
  · intro s0 h0 hset
    rw [kvstorageWrite_cases, pk, h0]
    simp [hset, st]
  · intro s0 h0
    rw [kvstorageDelete_cases, pk, h0]
    simp [st]
  · intro heq
    have hs2 : h2.storage (some c) = h.storage (some c) := by rw [pk, pk, heq]
    refine ⟨kvstorageRead_congr env h h2 c k zBuf nBuf hs2, ?_⟩
    rw [kvstorageWrite_cases, kvstorageWrite_cases, kvstorageDelete_cases,
      kvstorageDelete_cases, pk, pk, heq]
    cases h.localStorage with
    | none => simp [heq]
    | some s0 =>
      dsimp only
      refine ⟨?_, ?_, ?_, ?_⟩
      · split <;> rfl
      · split <;> simp [st, heq]
      · rfl
      · simp [st]

theorem readsFrom_of_storage (pick : Host → Option Storage) (env : JSEnv) (c k : CStr)
    (hp : ∀ x : Host, x.storage (some c) = pick x) : ReadsFrom pick env c k := by
  intro h zBuf nBuf
  refine ⟨?_, ?_, ?_⟩
  · intro h0
    have hs : h.storage (some c) = none := by rw [hp, h0]
    simp only [kvstorageRead, kvstorageMakeKeyOnJSStack_some, hs]
  · intro st h0 hget
    have hs : h.storage (some c) = some st := by rw [hp, h0]
    unfold storageKey at hget
    simp only [kvstorageRead, kvstorageMakeKeyOnJSStack_some, hs, hget]
  · intro st jV h0 hget hne
    have hs : h.storage (some c) = some st := by rw [hp, h0]
    exact kvstorageRead_eq env h c k st jV zBuf nBuf hs hget hne

/-- C6 (store dispatch depends only on the first character of the class): for
    every class whose bytes are those of a C string, `kvstorageWrite`,
    `kvstorageRead` and `kvstorageDelete` act on the Session map when the first
    byte of the class is 115 and on the Persistent map otherwise (an empty class
    included); the rest of the class plays no part in the choice.  Acting on a
    map means: a write sets the entry in that map and a delete removes it from
    that map, the read returns what that map holds under the derived key, and
    the map that is not chosen is left unchanged and has no influence on any
    result. -/
theorem kvstorage_dispatch (env : JSEnv) (c k d : CStr) (hc : IsCStr c) :
    (c.head? = some 115 →
      ActsOn Host.sessionStorage Host.localStorage env c k d ∧
      ReadsFrom Host.sessionStorage env c k) ∧
    (c.head? ≠ some 115 →
      ActsOn Host.localStorage Host.sessionStorage env c k d ∧
      ReadsFrom Host.localStorage env c k) := by
  constructor
  · intro hh
    have hs : getValue (some c) = 115 := (getValue_eq_115 c hc).mpr hh
    exact ⟨actsOn_session env c k d hs,
      readsFrom_of_storage _ env c k (fun x => by simp [Host.storage, hs])⟩
  · intro hh
    have hs : getValue (some c) ≠ 115 := fun hv => hh ((getValue_eq_115 c hc).mp hv)
    exact ⟨actsOn_local env c k d hs,
      readsFrom_of_storage _ env c k (fun x => by simp [Host.storage, hs])⟩

/-- Witness of C6: classes "session" and "s" choose the Session map; classes
    "local", "p" and "S" choose the Persistent map. -/
theorem kvstorage_dispatch_witness :
    (IsCStr (cstr "session") ∧ (cstr "session").head? = some 115 ∧
      ActsOn Host.sessionStorage Host.localStorage plainEnv (cstr "session") (cstr "hello")
        (cstr "world") ∧
      ReadsFrom Host.sessionStorage plainEnv (cstr "session") (cstr "hello")) ∧
    (IsCStr (cstr "s") ∧ (cstr "s").head? = some 115 ∧
      ActsOn Host.sessionStorage Host.localStorage plainEnv (cstr "s") (cstr "hello")
        (cstr "world") ∧
      ReadsFrom Host.sessionStorage plainEnv (cstr "s") (cstr "hello")) ∧
    (IsCStr (cstr "local") ∧ (cstr "local").head? ≠ some 115 ∧
      ActsOn Host.localStorage Host.sessionStorage plainEnv (cstr "local") (cstr "hello")
        (cstr "world") ∧
      ReadsFrom Host.localStorage plainEnv (cstr "local") (cstr "hello")) ∧
    (IsCStr (cstr "p") ∧ (cstr "p").head? ≠ some 115 ∧
      ActsOn Host.localStorage Host.sessionStorage plainEnv (cstr "p") (cstr "hello")
        (cstr "world") ∧
      ReadsFrom Host.localStorage plainEnv (cstr "p") (cstr "hello")) ∧
    (IsCStr (cstr "S") ∧ (cstr "S").head? ≠ some 115 ∧
      ActsOn Host.localStorage Host.sessionStorage plainEnv (cstr "S") (cstr "hello")
        (cstr "world") ∧
      ReadsFrom Host.localStorage plainEnv (cstr "S") (cstr "hello")) :=
  ⟨⟨by decide, by decide, (kvstorage_dispatch plainEnv _ _ _ (by decide)).1 (by decide)⟩,
   ⟨by decide, by decide, (kvstorage_dispatch plainEnv _ _ _ (by decide)).1 (by decide)⟩,
   ⟨by decide, by decide, (kvstorage_dispatch plainEnv _ _ _ (by decide)).2 (by decide)⟩,
   ⟨by decide, by decide, (kvstorage_dispatch plainEnv _ _ _ (by decide)).2 (by decide)⟩,
   ⟨by decide, by decide, (kvstorage_dispatch plainEnv _ _ _ (by decide)).2 (by decide)⟩⟩

/-- On a host whose two maps hold different values, a probe under class
    "session" reports the length of the session value and a probe under class
    "local" the length of the local value; a full read under each class copies
    the value of its own map. -/
theorem kvstorageRead_dispatch_example :
    (kvstorageRead plainEnv twoMapsHost (some (cstr "session")) (some (cstr "hello"))
      (fun _ => 255) 0).1 = 3 ∧
    (kvstorageRead plainEnv twoMapsHost (some (cstr "local")) (some (cstr "hello"))
      (fun _ => 255) 0).1 = 5 ∧
    (List.range 4).map (kvstorageRead plainEnv twoMapsHost (some (cstr "session"))
      (some (cstr "hello")) (fun _ => 255) 16).2 = cstr "abc" ++ [0] ∧
    (List.range 6).map (kvstorageRead plainEnv twoMapsHost (some (cstr "local"))
      (some (cstr "hello")) (fun _ => 255) 16).2 = cstr "vwxyz" ++ [0] := by
  decide

/-! ## Key derivation -/

theorem kvstorageMakeKey_eq (c k out : CStr) :
    kvstorageMakeKey (some c) (some k) out = (fullKey c k).take 31 := by
  simp [kvstorageMakeKey, sqlite3_snprintf, KVSTORAGE_KEY_SZ, fullKey, fmtS]

/-- C7 (key derivation and its truncation policy): for every class `c` and key
    `k`, the key that `kvstorageMakeKey` leaves in its output buffer has at most
    31 bytes before the terminator and is the first 31 bytes of
    "kvvfs-" + c + "-" + k.  So it is the whole text when class and key together
    have at most 24 bytes; otherwise the tail of the key goes first (a class of
    at most 24 bytes is kept whole, followed by "-" and the first `24 - len(c)`
    bytes of the key), then the class (of a class of 25 bytes or more only the
    first 25 bytes are kept and nothing of the key), and the literal "kvvfs-" is
    always kept.  `sqlite3_wasm__kvvfsMakeKey` writes the same key into a
    non-NULL buffer, writes nothing for a NULL one, and returns 32 either way;
    `kvstorageMakeKeyOnJSStack` yields the same key. -/
theorem kvstorageMakeKey_format (c k out : CStr) :
    (kvstorageMakeKey (some c) (some k) out).length ≤ 31 ∧
    kvstorageMakeKey (some c) (some k) out = (kvvfsLiteral ++ c ++ [45] ++ k).take 31 ∧
    kvvfsLiteral <+: kvstorageMakeKey (some c) (some k) out ∧
    (c.length + k.length ≤ 24 →
      kvstorageMakeKey (some c) (some k) out = kvvfsLiteral ++ c ++ [45] ++ k) ∧
    (c.length ≤ 24 →
      kvstorageMakeKey (some c) (some k) out
        = kvvfsLiteral ++ c ++ [45] ++ k.take (24 - c.length)) ∧
    (25 ≤ c.length →
      kvstorageMakeKey (some c) (some k) out = kvvfsLiteral ++ c.take 25) ∧
    sqlite3_wasm__kvvfsMakeKey (some c) (some k) (some out)
      = (32, some ((kvvfsLiteral ++ c ++ [45] ++ k).take 31)) ∧
    sqlite3_wasm__kvvfsMakeKey (some c) (some k) none = (32, none) ∧
    kvstorageMakeKeyOnJSStack (some c) (some k)
      = some ((kvvfsLiteral ++ c ++ [45] ++ k).take 31) := by
  have hlit : kvvfsLiteral.length = 6 := rfl
  have e := kvstorageMakeKey_eq c k out
  unfold fullKey at e
  refine ⟨?_, e, ?_, ?_, ?_, ?_, ?_, rfl, ?_⟩
  · rw [e]; simp
  · rw [e]
    have : (kvvfsLiteral ++ c ++ [45] ++ k).take 31
        = kvvfsLiteral ++ (c ++ [45] ++ k).take 25 := by
      simp [List.take_append_eq_append_take, hlit, List.take_of_length_le]
    rw [this]
    exact List.prefix_append _ _
  · intro hle
    rw [e]
    apply List.take_of_length_le
    simp [hlit]; omega
  · intro hle
    rw [e]
    have h1 : (kvvfsLiteral ++ c ++ [45]).length = 7 + c.length := by simp [hlit]; omega
    rw [List.take_append_eq_append_take, List.take_of_length_le (by omega), h1]
    congr 2
    omega
  · intro hge
    rw [e]
    have : kvvfsLiteral ++ c ++ [45] ++ k = kvvfsLiteral ++ (c ++ ([45] ++ k)) := by simp
    rw [this, List.take_append_eq_append_take, List.take_of_length_le (by simp [hlit]), hlit,
      List.take_append_eq_append_take]
    have h2 : 31 - 6 - c.length = 0 := by omega
    simp [h2]
  · simp only [sqlite3_wasm__kvvfsMakeKey, e]; rfl
  · rw [kvstorageMakeKeyOnJSStack_some, kvstorageMakeKey_eq]; rfl

/-- Witness of C7: a class of 2 bytes and a key of 26 bytes; the key loses its
    last 4 bytes. -/
theorem kvstorageMakeKey_format_witness :
    (cstr "lo").length ≤ 24 ∧
    kvstorageMakeKey (some (cstr "lo")) (some (cstr "abcdefghijklmnopqrstuvwxyz")) []
      = kvvfsLiteral ++ cstr "lo" ++ [45]
          ++ (cstr "abcdefghijklmnopqrstuvwxyz").take (24 - (cstr "lo").length) :=
  ⟨by decide,
   (kvstorageMakeKey_format (cstr "lo") (cstr "abcdefghijklmnopqrstuvwxyz") []).2.2.2.2.1
     (by decide)⟩

/-! ## sqlite3_wasm_vfs_unlink -/

/-- C8 (sqlite3_wasm_vfs_unlink delegates or reports Misuse): for every non-NULL
    path, without a default VFS the result is `SQLITE_MISUSE` and no delete is
    invoked; with a default VFS that has no `xDelete` likewise; and with a
    default VFS that has an `xDelete`, that method is invoked exactly once, on
    the same path (with `syncDir = 1`), and its result is returned as is. -/
theorem sqlite3_wasm_vfs_unlink_delegates (path : CStr) :
    sqlite3_wasm_vfs_unlink none (some path) = (SQLITE_MISUSE, []) ∧
    sqlite3_wasm_vfs_unlink (some { xDelete := none }) (some path) = (SQLITE_MISUSE, []) ∧
    (∀ xDelete : CStr → Int → Int,
      sqlite3_wasm_vfs_unlink (some { xDelete := some xDelete }) (some path)
        = (xDelete path 1, [(path, 1)])) :=
  ⟨rfl, rfl, fun _ => rfl⟩

/-- C9, as stated, fails: with a default VFS whose `xDelete` returns 0, unlink
    of the empty path returns 0, not `SQLITE_MISUSE`, and `xDelete` is invoked
    on the empty path. -/
theorem sqlite3_wasm_vfs_unlink_empty_path_delegated :
    (sqlite3_wasm_vfs_unlink (some okVfs) (some [])).1 = 0 ∧
    (sqlite3_wasm_vfs_unlink (some okVfs) (some [])).1 ≠ SQLITE_MISUSE ∧
    (sqlite3_wasm_vfs_unlink (some okVfs) (some [])).2 = [([], 1)] := by
  decide

/-- C9, amended (sqlite3_wasm_vfs_unlink rejects a NULL path): for every default
    VFS state, a registered VFS with an `xDelete` included, unlink of a NULL
    path returns `SQLITE_MISUSE` and invokes no delete; an empty path that is
    not NULL is handed to `xDelete` like any other path. -/
theorem sqlite3_wasm_vfs_unlink_null_path (pVfs : Option sqlite3_vfs) :
    sqlite3_wasm_vfs_unlink pVfs none = (SQLITE_MISUSE, []) ∧
    (∀ xDelete : CStr → Int → Int,
      sqlite3_wasm_vfs_unlink (some { xDelete := some xDelete }) (some [])
        = (xDelete [] 1, [([], 1)])) := by
  refine ⟨?_, fun _ => rfl⟩
  cases pVfs <;> rfl

/-! ## sqlite3_wasm_init_opfs -/

theorem sqlite3_wasm_init_opfs_ok (host : OpfsHost) (s : OpfsState) (p : Option CStr)
    (h0 : (sqlite3_wasm_init_opfs host s p).1 = 0) :
    (sqlite3_wasm_init_opfs host s p).2.pOpfs ≠ 0 ∧
    access (sqlite3_wasm_init_opfs host s p).2 (mountPointOrDefault p) = 0 := by
  revert h0
  simp only [sqlite3_wasm_init_opfs, wasmfs_create_directory]
  generalize mountPointOrDefault p = mp
  by_cases hp : s.pOpfs = 0
  · by_cases hb : host.backend = 0
    · simp [hp, hb, SQLITE_NOMEM]
    · by_cases hm : host.mkdirRc = 0
      · by_cases ha : mp ∈ s.existing <;> simp [hp, hb, hm, ha, access]
      · by_cases ha : mp ∈ s.existing <;> simp [hp, hb, hm, ha, access, SQLITE_IOERR]
  · by_cases hm : host.mkdirRc = 0
    · by_cases ha : mp ∈ s.existing <;> simp [hp, hm, ha, access]
    · by_cases ha : mp ∈ s.existing <;> simp [hp, hm, ha, access, SQLITE_IOERR]

/-- C10 (sqlite3_wasm_init_opfs is idempotent after success): for every mount
    point `p` (NULL and empty included), every state and every pair of host
    behaviours, once a call with `p` has returned 0, the backend exists and the
    mount directory is present, and a second call with `p` returns 0 and is a
    no-op: the state after it, that is the backend handle, the existing paths
    and the list of WASMFS calls made, is the state before it, so neither
    `wasmfs_create_opfs_backend` nor `wasmfs_create_directory` is called
    again. -/
theorem sqlite3_wasm_init_opfs_idempotent (host1 host2 : OpfsHost) (s : OpfsState)
    (p : Option CStr) (h0 : (sqlite3_wasm_init_opfs host1 s p).1 = 0) :
    (sqlite3_wasm_init_opfs host1 s p).2.pOpfs ≠ 0 ∧
    sqlite3_wasm_init_opfs host2 (sqlite3_wasm_init_opfs host1 s p).2 p
      = (0, (sqlite3_wasm_init_opfs host1 s p).2) := by
  obtain ⟨hb, ha⟩ := sqlite3_wasm_init_opfs_ok host1 s p h0
  refine ⟨hb, ?_⟩
  generalize (sqlite3_wasm_init_opfs host1 s p).2 = s1 at hb ha
  simp only [sqlite3_wasm_init_opfs]
  simp [hb, ha]

/-- Witness of C10: first call on a fresh state with a host that creates
    the backend and the directory "/persistent"; second call with a host that
    can do neither. -/
theorem sqlite3_wasm_init_opfs_idempotent_witness :
    (sqlite3_wasm_init_opfs goodOpfsHost freshOpfs (some [])).1 = 0 ∧
    (sqlite3_wasm_init_opfs goodOpfsHost freshOpfs (some [])).2.pOpfs ≠ 0 ∧
    sqlite3_wasm_init_opfs badOpfsHost
        (sqlite3_wasm_init_opfs goodOpfsHost freshOpfs (some [])).2 (some [])
      = (0, (sqlite3_wasm_init_opfs goodOpfsHost freshOpfs (some [])).2) :=
  ⟨by decide,
   sqlite3_wasm_init_opfs_idempotent goodOpfsHost badOpfsHost freshOpfs (some []) (by decide)⟩

/-- The result code and the state of `sqlite3_wasm_init_opfs`, by cases on what
    the call finds and what the host answers. -/
theorem sqlite3_wasm_init_opfs_cases (host : OpfsHost) (s : OpfsState) (p : Option CStr) :
    sqlite3_wasm_init_opfs host s p =
      if s.pOpfs = 0 ∧ host.backend = 0 then
        (SQLITE_NOMEM, { s with calls := s.calls ++ [FsCall.createBackend] })
      else if mountPointOrDefault p ∈ s.existing then
        (0, if s.pOpfs = 0 then
              { s with pOpfs := host.backend, calls := s.calls ++ [FsCall.createBackend] }
            else s)
      else
        (if host.mkdirRc ≠ 0 then SQLITE_IOERR else 0,
          { pOpfs := backendAfterCreate host s
            existing := if host.mkdirRc = 0 then mountPointOrDefault p :: s.existing
                        else s.existing
            calls := (if s.pOpfs = 0 then s.calls ++ [FsCall.createBackend] else s.calls)
              ++ [FsCall.createDirectory (mountPointOrDefault p) 511
                    (backendAfterCreate host s)] }) := by
  simp only [sqlite3_wasm_init_opfs, wasmfs_create_directory, backendAfterCreate]
  generalize mountPointOrDefault p = mp
  obtain ⟨b0, ex, cl⟩ := s
  by_cases hp : b0 = 0
  · by_cases hb : host.backend = 0
    · simp [hp, hb]
    · by_cases hm : host.mkdirRc = 0
      · by_cases ha : mp ∈ ex <;> simp [hp, hb, hm, ha, access]
      · by_cases ha : mp ∈ ex <;> simp [hp, hb, hm, ha, access]
  · by_cases hm : host.mkdirRc = 0
    · by_cases ha : mp ∈ ex <;> simp [hp, hm, ha, access]
    · by_cases ha : mp ∈ ex <;> simp [hp, hm, ha, access]

/-- A call that finds no backend makes one `wasmfs_create_opfs_backend` call
    first and ends with the handle the host handed out. -/
theorem sqlite3_wasm_init_opfs_retries (host : OpfsHost) (s : OpfsState) (p : Option CStr)
    (h0 : s.pOpfs = 0) :
    (s.calls ++ [FsCall.createBackend]) <+: (sqlite3_wasm_init_opfs host s p).2.calls ∧
    (sqlite3_wasm_init_opfs host s p).2.pOpfs = host.backend := by
  rw [sqlite3_wasm_init_opfs_cases]
  by_cases hb : host.backend = 0
  · simp [h0, hb]
  · by_cases ha : mountPointOrDefault p ∈ s.existing
    · simp [h0, hb, ha]
    · simp [h0, hb, ha, backendAfterCreate]

/-- C11 (result codes of sqlite3_wasm_init_opfs): for every mount point, state
    and host behaviour, the call returns `SQLITE_NOMEM` exactly when it found no
    backend and creating one failed; then the backend handle is still 0 and the
    existing paths are as before, and a later call, whatever the host then
    answers, calls `wasmfs_create_opfs_backend` again.  It returns
    `SQLITE_IOERR` exactly when a backend exists (found or just created), the
    mount path does not exist and `wasmfs_create_directory` fails.  It returns 0
    exactly in every other case; in particular, with a backend and an existing
    mount path it returns 0 without calling `wasmfs_create_directory`. -/
theorem sqlite3_wasm_init_opfs_result_codes (host : OpfsHost) (s : OpfsState)
    (p : Option CStr) :
    ((sqlite3_wasm_init_opfs host s p).1 = SQLITE_NOMEM ↔
      (s.pOpfs = 0 ∧ host.backend = 0)) ∧
    (s.pOpfs = 0 ∧ host.backend = 0 →
      (sqlite3_wasm_init_opfs host s p).2.pOpfs = 0 ∧
      (sqlite3_wasm_init_opfs host s p).2.existing = s.existing ∧
      (sqlite3_wasm_init_opfs host s p).2.calls = s.calls ++ [FsCall.createBackend] ∧
      ∀ host2 : OpfsHost,
        ((sqlite3_wasm_init_opfs host s p).2.calls ++ [FsCall.createBackend]) <+:
          (sqlite3_wasm_init_opfs host2 (sqlite3_wasm_init_opfs host s p).2 p).2.calls ∧
        (sqlite3_wasm_init_opfs host2 (sqlite3_wasm_init_opfs host s p).2 p).2.pOpfs
          = host2.backend) ∧
    ((sqlite3_wasm_init_opfs host s p).1 = SQLITE_IOERR ↔
      (backendAfterCreate host s ≠ 0 ∧ mountPointOrDefault p ∉ s.existing ∧
        host.mkdirRc ≠ 0)) ∧
    ((sqlite3_wasm_init_opfs host s p).1 = 0 ↔
      (¬ (s.pOpfs = 0 ∧ host.backend = 0) ∧
       ¬ (backendAfterCreate host s ≠ 0 ∧ mountPointOrDefault p ∉ s.existing ∧
          host.mkdirRc ≠ 0))) ∧
    (backendAfterCreate host s ≠ 0 → mountPointOrDefault p ∈ s.existing →
      (sqlite3_wasm_init_opfs host s p).1 = 0 ∧
      (sqlite3_wasm_init_opfs host s p).2.existing = s.existing ∧
      (sqlite3_wasm_init_opfs host s p).2.calls
        = if s.pOpfs = 0 then s.calls ++ [FsCall.createBackend] else s.calls) := by
  refine ⟨?_, ?_, ?_, ?_, ?_⟩
  · rw [sqlite3_wasm_init_opfs_cases]
    by_cases h1 : s.pOpfs = 0 ∧ host.backend = 0
    · simp [h1]
    · by_cases ha : mountPointOrDefault p ∈ s.existing
      · simp [h1, ha, SQLITE_NOMEM]
      · by_cases hm : host.mkdirRc = 0 <;> simp [h1, ha, hm, SQLITE_NOMEM, SQLITE_IOERR]
  · intro h1
    have hr : sqlite3_wasm_init_opfs host s p
        = (SQLITE_NOMEM, { s with calls := s.calls ++ [FsCall.createBackend] }) := by
      rw [sqlite3_wasm_init_opfs_cases, if_pos h1]
    rw [hr]
    refine ⟨h1.1, rfl, rfl, fun host2 => ?_⟩
    exact sqlite3_wasm_init_opfs_retries host2 _ p h1.1
  · rw [sqlite3_wasm_init_opfs_cases]
    by_cases h1 : s.pOpfs = 0 ∧ host.backend = 0
    · have : backendAfterCreate host s = 0 := by simp [backendAfterCreate, h1.1, h1.2]
      simp [h1, this, SQLITE_NOMEM, SQLITE_IOERR]
    · have hb : backendAfterCreate host s ≠ 0 := by
        unfold backendAfterCreate
        by_cases hp : s.pOpfs = 0
        · simp only [hp, if_true]; exact fun hb => h1 ⟨hp, hb⟩
        · simp only [hp, if_false]; exact hp
      by_cases ha : mountPointOrDefault p ∈ s.existing
      · simp [h1, ha, SQLITE_IOERR]
      · by_cases hm : host.mkdirRc = 0 <;> simp [h1, ha, hm, hb, SQLITE_IOERR]
  · rw [sqlite3_wasm_init_opfs_cases]
    by_cases h1 : s.pOpfs = 0 ∧ host.backend = 0
    · simp [h1, SQLITE_NOMEM]
    · have hb : backendAfterCreate host s ≠ 0 := by
        unfold backendAfterCreate
        by_cases hp : s.pOpfs = 0
        · simp only [hp, if_true]; exact fun hb => h1 ⟨hp, hb⟩
        · simp only [hp, if_false]; exact hp
      by_cases ha : mountPointOrDefault p ∈ s.existing
      · simp [h1, ha]
      · by_cases hm : host.mkdirRc = 0 <;> simp [h1, ha, hm, hb, SQLITE_IOERR]
  · intro hb ha
    have h1 : ¬ (s.pOpfs = 0 ∧ host.backend = 0) := by
      intro h1
      apply hb
      simp [backendAfterCreate, h1.1, h1.2]
    rw [sqlite3_wasm_init_opfs_cases, if_neg h1, if_pos ha]
    by_cases hp : s.pOpfs = 0 <;> simp [hp]

/-- Witness of C11: on a fresh state a host that cannot create the backend gives
    `SQLITE_NOMEM` and leaves the handle at 0; the next call asks the host
    again. -/
theorem sqlite3_wasm_init_opfs_result_codes_witness :
    (freshOpfs.pOpfs = 0 ∧ badOpfsHost.backend = 0) ∧
    (sqlite3_wasm_init_opfs badOpfsHost freshOpfs none).1 = SQLITE_NOMEM ∧
    ((sqlite3_wasm_init_opfs badOpfsHost freshOpfs none).2.pOpfs = 0 ∧
      (sqlite3_wasm_init_opfs badOpfsHost freshOpfs none).2.existing = freshOpfs.existing ∧
      (sqlite3_wasm_init_opfs badOpfsHost freshOpfs none).2.calls
        = freshOpfs.calls ++ [FsCall.createBackend] ∧
      ∀ host2 : OpfsHost,
        ((sqlite3_wasm_init_opfs badOpfsHost freshOpfs none).2.calls
            ++ [FsCall.createBackend]) <+:
          (sqlite3_wasm_init_opfs host2
            (sqlite3_wasm_init_opfs badOpfsHost freshOpfs none).2 none).2.calls ∧
        (sqlite3_wasm_init_opfs host2
            (sqlite3_wasm_init_opfs badOpfsHost freshOpfs none).2 none).2.pOpfs
          = host2.backend) :=
  ⟨⟨rfl, rfl⟩,
   (sqlite3_wasm_init_opfs_result_codes badOpfsHost freshOpfs none).1.mpr ⟨rfl, rfl⟩,
   (sqlite3_wasm_init_opfs_result_codes badOpfsHost freshOpfs none).2.1 ⟨rfl, rfl⟩⟩

/-! ## Failure codes of kvstorageWrite -/

/-- C12, as stated, fails: a write with a NULL class returns 1, which is not
    `SQLITE_NOMEM`; a write whose `setItem` throws returns 1, which is not
    `SQLITE_IOERR`; and the two failure causes give one and the same code. -/
theorem kvstorageWrite_failure_codes_coincide :
    (kvstorageWrite plainEnv ⟨some [], some []⟩ none (some (cstr "hello")) (cstr "world")).1 = 1 ∧
    (kvstorageWrite plainEnv ⟨some [], some []⟩ none (some (cstr "hello")) (cstr "world")).1
      ≠ SQLITE_NOMEM ∧
    (kvstorageWrite refusingEnv ⟨some [], some []⟩ (some (cstr "session"))
      (some (cstr "hello")) (cstr "world")).1 = 1 ∧
    (kvstorageWrite refusingEnv ⟨some [], some []⟩ (some (cstr "session"))
      (some (cstr "hello")) (cstr "world")).1 ≠ SQLITE_IOERR ∧
    (kvstorageWrite plainEnv ⟨some [], some []⟩ none (some (cstr "hello")) (cstr "world")).1
      = (kvstorageWrite refusingEnv ⟨some [], some []⟩ (some (cstr "session"))
          (some (cstr "hello")) (cstr "world")).1 := by
  decide

/-- C12, amended (failure codes of kvstorageWrite): for every input, the write
    returns 1 when the class or the key is NULL, returns the same 1 when the
    chosen map cannot be reached or its `setItem` throws, and returns 0
    otherwise, with the entry of the derived key set.  The result is always 0
    or 1, so the two failure causes are not told apart by the code, and 1 is
    neither `SQLITE_NOMEM` nor `SQLITE_IOERR`.  Every failing call returns
    normally and leaves both maps as they were. -/
theorem kvstorageWrite_failure_codes (env : JSEnv) (h : Host) (zClass zKey : Option CStr)
    (d : CStr) :
    kvstorageWrite env h none zKey d = (1, h) ∧
    kvstorageWrite env h zClass none d = (1, h) ∧
    (∀ c k : CStr, h.storage (some c) = none →
      kvstorageWrite env h (some c) (some k) d = (1, h)) ∧
    (∀ (c k : CStr) (st : Storage), h.storage (some c) = some st →
      env.setItemThrows st (storageKey env c k) (env.UTF8ToString d) = true →
      kvstorageWrite env h (some c) (some k) d = (1, h)) ∧
    (∀ (c k : CStr) (st : Storage), h.storage (some c) = some st →
      env.setItemThrows st (storageKey env c k) (env.UTF8ToString d) = false →
      kvstorageWrite env h (some c) (some k) d
        = (0, h.setStorage (some c) (st.setItem (storageKey env c k) (env.UTF8ToString d)))) ∧
    ((kvstorageWrite env h zClass zKey d).1 = 0 ∨ (kvstorageWrite env h zClass zKey d).1 = 1) ∧
    ((kvstorageWrite env h zClass zKey d).1 ≠ 0 → (kvstorageWrite env h zClass zKey d).2 = h) ∧
    (kvstorageWrite env h zClass zKey d).1 ≠ SQLITE_NOMEM ∧
    (kvstorageWrite env h zClass zKey d).1 ≠ SQLITE_IOERR := by
  have hnull1 : kvstorageWrite env h none zKey d = (1, h) := by
    simp [kvstorageWrite, kvstorageMakeKeyOnJSStack]
  have hnull2 : kvstorageWrite env h zClass none d = (1, h) := by
    cases zClass <;> simp [kvstorageWrite, kvstorageMakeKeyOnJSStack]
  have hshape : kvstorageWrite env h zClass zKey d = (1, h) ∨
      ∃ h1, kvstorageWrite env h zClass zKey d = (0, h1) := by
    cases zClass with
    | none => exact Or.inl hnull1
    | some c =>
      cases zKey with
      | none => exact Or.inl hnull2
      | some k =>
        rw [kvstorageWrite_cases]
        cases h.storage (some c) with
        | none => exact Or.inl rfl
        | some st =>
          dsimp only
          split
          · exact Or.inl rfl
          · exact Or.inr ⟨_, rfl⟩
  refine ⟨hnull1, hnull2, ?_, ?_, ?_, ?_, ?_, ?_, ?_⟩
  · intro c k hs
    rw [kvstorageWrite_cases, hs]
  · intro c k st hs ht
    rw [kvstorageWrite_cases, hs]
    simp [ht]
  · intro c k st hs ht
    exact kvstorageWrite_eq env h c k d st hs ht
  · rcases hshape with e | ⟨h1, e⟩ <;> simp [e]
  · rcases hshape with e | ⟨h1, e⟩ <;> simp [e]
  · rcases hshape with e | ⟨h1, e⟩ <;> simp [e, SQLITE_NOMEM]
  · rcases hshape with e | ⟨h1, e⟩ <;> simp [e, SQLITE_IOERR]

/-- Witness of C12, amended: a write to class "session" whose `setItem` throws
    returns 1 and leaves the host unchanged. -/
theorem kvstorageWrite_failure_codes_witness :
    (Host.storage ⟨some [], some []⟩ (some (cstr "session")) = some [] ∧
      refusingEnv.setItemThrows [] (storageKey refusingEnv (cstr "session") (cstr "hello"))
        (refusingEnv.UTF8ToString (cstr "world")) = true) ∧
    kvstorageWrite refusingEnv ⟨some [], some []⟩ (some (cstr "session")) (some (cstr "hello"))
      (cstr "world") = (1, ⟨some [], some []⟩) :=
  ⟨⟨by decide, rfl⟩,
   (kvstorageWrite_failure_codes refusingEnv ⟨some [], some []⟩ (some (cstr "session"))
      (some (cstr "hello")) (cstr "world")).2.2.2.1 (cstr "session") (cstr "hello") []
      (by decide) rfl⟩

/-! ## Key derivation is not injective -/

theorem fullKey_take_short (c k : CStr) (hc : c.length ≤ 24) :
    (fullKey c k).take 31 = kvvfsLiteral ++ c ++ [45] ++ k.take (24 - c.length) := by
  have hlit : kvvfsLiteral.length = 6 := rfl
  have h1 : (kvvfsLiteral ++ c ++ [45]).length = 7 + c.length := by simp [hlit]; omega
  unfold fullKey
  rw [List.take_append_eq_append_take, List.take_of_length_le (by omega), h1]
  congr 2
  omega

theorem fullKey_take_long (c k : CStr) (hc : 25 ≤ c.length) :
    (fullKey c k).take 31 = kvvfsLiteral ++ c.take 25 := by
  have hlit : kvvfsLiteral.length = 6 := rfl
  have h0 : fullKey c k = kvvfsLiteral ++ (c ++ ([45] ++ k)) := by simp [fullKey]
  rw [h0, List.take_append_eq_append_take, List.take_of_length_le (by simp [hlit]), hlit,
    List.take_append_eq_append_take]
  have h2 : 31 - 6 - c.length = 0 := by omega
  simp [h2]

theorem kvstorageMakeKey_same_class (c k1 k2 : CStr)
    (hk : k1.take (24 - c.length) = k2.take (24 - c.length)) :
    kvstorageMakeKey (some c) (some k1) [] = kvstorageMakeKey (some c) (some k2) [] := by
  rw [kvstorageMakeKey_eq, kvstorageMakeKey_eq]
  by_cases hc : c.length ≤ 24
  · rw [fullKey_take_short c k1 hc, fullKey_take_short c k2 hc, hk]
  · rw [fullKey_take_long c k1 (by omega), fullKey_take_long c k2 (by omega)]

theorem Host.storage_congr (h : Host) (c1 c2 : CStr)
    (hsel : getValue (some c1) = 115 ↔ getValue (some c2) = 115) :
    h.storage (some c1) = h.storage (some c2) := by
  unfold Host.storage
  by_cases h1 : getValue (some c1) = 115
  · rw [if_pos h1, if_pos (hsel.mp h1)]
  · rw [if_neg h1, if_neg (fun h2 => h1 (hsel.mpr h2))]

theorem kvstorageRead_alias (env : JSEnv) (h : Host) (c1 k1 c2 k2 : CStr) (zBuf : Buffer)
    (nBuf : Int)
    (hkey : kvstorageMakeKey (some c1) (some k1) [] = kvstorageMakeKey (some c2) (some k2) [])
    (hsel : getValue (some c1) = 115 ↔ getValue (some c2) = 115) :
    kvstorageRead env h (some c2) (some k2) zBuf nBuf
      = kvstorageRead env h (some c1) (some k1) zBuf nBuf := by
  simp only [kvstorageRead, kvstorageMakeKeyOnJSStack_some, hkey, Host.storage_congr h c1 c2 hsel]

/-- C13 (key derivation is not injective): the distinct pairs ("s-a","b") and
    ("s","a-b") both choose the Session map and both derive the key
    "kvvfs-s-a-b"; two keys of one class that agree on their first
    `31-7-len(class)` bytes derive the same key (with a class of 24 bytes or
    more, any two keys do).  Whenever two pairs choose the same map and derive
    the same key, every read under the second pair gives what the read under
    the first gives, and a non-empty single-byte value written under the first
    pair is returned in full by a read under the second. -/
theorem kvstorage_key_not_injective :
    ((cstr "s-a", cstr "b") ≠ (cstr "s", cstr "a-b") ∧
      getValue (some (cstr "s-a")) = 115 ∧ getValue (some (cstr "s")) = 115 ∧
      kvstorageMakeKey (some (cstr "s-a")) (some (cstr "b")) [] = cstr "kvvfs-s-a-b" ∧
      kvstorageMakeKey (some (cstr "s")) (some (cstr "a-b")) [] = cstr "kvvfs-s-a-b") ∧
    (∀ c k1 k2 : CStr, k1.take (31 - 7 - c.length) = k2.take (31 - 7 - c.length) →
      kvstorageMakeKey (some c) (some k1) [] = kvstorageMakeKey (some c) (some k2) []) ∧
    (∀ (env : JSEnv) (h : Host) (c1 k1 c2 k2 : CStr) (zBuf : Buffer) (nBuf : Int),
      kvstorageMakeKey (some c1) (some k1) [] = kvstorageMakeKey (some c2) (some k2) [] →
      (getValue (some c1) = 115 ↔ getValue (some c2) = 115) →
      kvstorageRead env h (some c2) (some k2) zBuf nBuf
        = kvstorageRead env h (some c1) (some k1) zBuf nBuf) ∧
    (∀ (env : JSEnv) (h : Host) (c1 k1 c2 k2 d : CStr) (st : Storage) (zBuf : Buffer),
      env.AsciiExact →
      kvstorageMakeKey (some c1) (some k1) [] = kvstorageMakeKey (some c2) (some k2) [] →
      (getValue (some c1) = 115 ↔ getValue (some c2) = 115) →
      IsAscii d → d ≠ [] → h.storage (some c1) = some st →
      env.setItemThrows st (storageKey env c1 k1) (env.UTF8ToString d) = false →
      (kvstorageWrite env h (some c1) (some k1) d).1 = 0 ∧
      kvstorageRead env (kvstorageWrite env h (some c1) (some k1) d).2 (some c2) (some k2)
          zBuf ((d.length : Int) + 1)
        = ((d.length : Int),
            fun i => if i < d.length then d.getD i 0
                     else if i = d.length then 0 else zBuf i)) := by
  refine ⟨by decide, ?_, ?_, ?_⟩
  · intro c k1 k2 hk
    exact kvstorageMakeKey_same_class c k1 k2 hk
  · intro env h c1 k1 c2 k2 zBuf nBuf hkey hsel
    exact kvstorageRead_alias env h c1 k1 c2 k2 zBuf nBuf hkey hsel
  · intro env h c1 k1 c2 k2 d st zBuf hx hkey hsel hd hne hst hset
    rw [kvstorageRead_alias env _ c1 k1 c2 k2 zBuf _ hkey hsel]
    exact kvstorage_roundtrip_nonempty env hx h c1 k1 d st zBuf hd hne hst hset

/-- Witness of C13: "x" written under ("s-a","b") is read back under
    ("s","a-b"). -/
theorem kvstorage_key_not_injective_witness :
    (plainEnv.AsciiExact ∧
      kvstorageMakeKey (some (cstr "s-a")) (some (cstr "b")) []
        = kvstorageMakeKey (some (cstr "s")) (some (cstr "a-b")) [] ∧
      (getValue (some (cstr "s-a")) = 115 ↔ getValue (some (cstr "s")) = 115) ∧
      IsAscii (cstr "x") ∧ cstr "x" ≠ [] ∧
      Host.storage ⟨some [], some []⟩ (some (cstr "s-a")) = some [] ∧
      plainEnv.setItemThrows [] (storageKey plainEnv (cstr "s-a") (cstr "b"))
        (plainEnv.UTF8ToString (cstr "x")) = false) ∧
    ((kvstorageWrite plainEnv ⟨some [], some []⟩ (some (cstr "s-a")) (some (cstr "b"))
        (cstr "x")).1 = 0 ∧
      kvstorageRead plainEnv
          (kvstorageWrite plainEnv ⟨some [], some []⟩ (some (cstr "s-a")) (some (cstr "b"))
            (cstr "x")).2
          (some (cstr "s")) (some (cstr "a-b")) (fun _ => 255) (((cstr "x").length : Int) + 1)
        = (((cstr "x").length : Int),
            fun i => if i < (cstr "x").length then (cstr "x").getD i 0
                     else if i = (cstr "x").length then 0 else 255)) :=
  ⟨⟨plainEnv_asciiExact, by decide, by decide, by decide, by decide, by decide, rfl⟩,
   kvstorage_key_not_injective.2.2.2 plainEnv ⟨some [], some []⟩ (cstr "s-a") (cstr "b")
     (cstr "s") (cstr "a-b") (cstr "x") [] (fun _ => 255) plainEnv_asciiExact (by decide)
     (by decide) (by decide) (by decide) (by decide) rfl⟩

end Sqlite3Wasm
